import Mathlib

/-
Shallow embedding of the connection-pool subsystem of the aireporting
repository (src/database/connection_pool.py, src/config/settings.py).

Conventions of the embedding:
- Python exceptions become the inductive PErr; fallible code returns Except.
- The mutable psycopg2 ThreadedConnectionPool becomes the PGPool structure,
  threaded explicitly; its _pool list is stored head-first (the head is the
  element psycopg2's list.pop() would remove, i.e. the most recently
  appended), so append is cons and pop is head.
- Connections are values carrying an id; Python object identity becomes the
  id field, and the pool bookkeeping (the _used dict of psycopg2) keys on it.
- The backing database is modelled as a list of connections the server will
  hand out in order (the backend field); an empty supply makes connect fail.
- Calls to the pool primitives and to the health probe / rollback emit Event
  values, so per-call counting (release exactly once, retry exactly once)
  can be stated about the trace.
-/

/-- Transaction status of a connection: psycopg2 STATUS_READY versus any
in-transaction status. -/
inductive ConnStatus where
  | ready : ConnStatus
  | inTransaction : ConnStatus
deriving DecidableEq, Repr

/-- One database connection (a psycopg2 connection object). broken means the
server side is gone: queries and rollback on it raise. rollbackOk models
whether a rollback call on this connection succeeds. -/
structure Conn where
  id : Nat
  closed : Bool := false
  status : ConnStatus := ConnStatus.ready
  broken : Bool := false
  rollbackOk : Bool := true
deriving DecidableEq, Repr

/-- The Python exceptions the pool code can raise. appError stands for an
arbitrary exception raised by caller-supplied work. -/
inductive PErr where
  | poolExhausted : PErr
  | poolClosed : PErr
  | operationalError : PErr
  | valueError : PErr
  | interfaceError : PErr
  | appError : Nat → PErr
deriving DecidableEq, Repr

/-- Observable events of a run, for counting calls in the theorems.
getconnEv is emitted on every call to the pool primitive getconn;
putconnEv id close is emitted when putconn hands the connection back
successfully (returned to the idle list or closed by the pool);
probeEv / rollbackEv record the health probe and rollback calls with their
outcome; forceCloseEv records the force-close fallback of
return_connection; lockEv records taking a mutex. -/
inductive Event where
  | getconnEv : Event
  | putconnEv : Nat → Bool → Event
  | probeEv : Nat → Bool → Event
  | rollbackEv : Nat → Bool → Event
  | forceCloseEv : Nat → Event
  | lockEv : Event
deriving DecidableEq, Repr

abbrev Trace := List Event

/-- The health probe of DatabaseConnectionPool.get_connection:
cursor.execute of SELECT 1 round-trips iff the connection is open and the
server side is alive. -/
def Conn.probeOk (c : Conn) : Bool :=
  !c.broken && !c.closed

/-- conn.close(): marks the connection closed (idempotent in psycopg2). -/
def Conn.doClose (c : Conn) : Conn :=
  { c with closed := true }

/-- conn.rollback(): raises InterfaceError on a closed connection,
OperationalError when the server side is gone or the rollback fails;
otherwise the connection returns to STATUS_READY. -/
def Conn.doRollback (c : Conn) : Except PErr Conn :=
  if c.closed then Except.error PErr.interfaceError
  else if c.broken || !c.rollbackOk then Except.error PErr.operationalError
  else Except.ok { c with status := ConnStatus.ready }

/-- State of a psycopg2 ThreadedConnectionPool. idle is _pool (head-first,
see the file comment), used holds the checked-out connections (_used
values), pclosed is the closed flag set by closeall, backend is the supply
of fresh server connections _connect would create. -/
structure PGPool where
  minconn : Nat
  maxconn : Nat
  idle : List Conn
  used : List Conn
  pclosed : Bool
  backend : List Conn
deriving DecidableEq, Repr

/-- del _used[key]: remove the first entry with the given id. -/
def eraseById : List Conn → Nat → List Conn
  | [], _ => []
  | c :: rest, i => if c.id = i then rest else c :: eraseById rest i

/-- psycopg2 AbstractConnectionPool._getconn under the ThreadedConnectionPool
lock, with a fresh key per call: raises PoolError when the pool is closed;
pops an idle connection if one exists; otherwise raises PoolError
(connection pool exhausted) when used is at maxconn, else connects a new
one (OperationalError when the server refuses). Never blocks and takes no
timeout. -/
def PGPool.getconn (p : PGPool) : Except PErr Conn × PGPool × Trace :=
  if p.pclosed then (Except.error PErr.poolClosed, p, [Event.getconnEv])
  else
    match p.idle with
    | c :: rest =>
        (Except.ok c, { p with idle := rest, used := c :: p.used }, [Event.getconnEv])
    | [] =>
        if p.used.length = p.maxconn then
          (Except.error PErr.poolExhausted, p, [Event.getconnEv])
        else
          match p.backend with
          | c :: bs =>
              (Except.ok c, { p with backend := bs, used := c :: p.used }, [Event.getconnEv])
          | [] => (Except.error PErr.operationalError, p, [Event.getconnEv])

/-- psycopg2 AbstractConnectionPool._putconn: raises PoolError when the pool
is closed; when the idle list is below minconn and close is not requested,
an open connection in unknown transaction state is closed, one inside a
transaction is rolled back (a raising rollback propagates and leaves the
pool unchanged) and appended to the idle list, a ready one is appended;
otherwise the connection is closed. On success the entry leaves used. -/
def PGPool.putconn (p : PGPool) (c : Conn) (close : Bool) : Except PErr Unit × PGPool × Trace :=
  if p.pclosed then (Except.error PErr.poolClosed, p, [])
  else if p.idle.length < p.minconn && !close then
    if c.closed then
      (Except.ok (), { p with used := eraseById p.used c.id }, [Event.putconnEv c.id close])
    else if c.broken then
      (Except.ok (), { p with used := eraseById p.used c.id }, [Event.putconnEv c.id close])
    else if c.status = ConnStatus.ready then
      (Except.ok (),
       { p with idle := c :: p.idle, used := eraseById p.used c.id },
       [Event.putconnEv c.id close])
    else
      match c.doRollback with
      | Except.ok c1 =>
          (Except.ok (),
           { p with idle := c1 :: p.idle, used := eraseById p.used c.id },
           [Event.rollbackEv c.id true, Event.putconnEv c.id close])
      | Except.error e => (Except.error e, p, [Event.rollbackEv c.id false])
  else
    (Except.ok (), { p with used := eraseById p.used c.id }, [Event.putconnEv c.id close])

/-- psycopg2 AbstractConnectionPool.closeall: raises PoolError when already
closed, otherwise closes every idle and checked-out connection and marks
the pool closed. -/
def PGPool.closeall (p : PGPool) : Except PErr PGPool :=
  if p.pclosed then Except.error PErr.poolClosed
  else
    Except.ok
      { p with
        idle := p.idle.map Conn.doClose
        used := p.used.map Conn.doClose
        pclosed := true }

/-- Environment variables; os.getenv with a default. A variable set to the
empty string is found and yields the empty string. -/
def getenv (vars : List (String × String)) (k : String) (d : String) : String :=
  match vars.find? (fun p => p.1 == k) with
  | some p => p.2
  | none => d

/-- src/config/settings.py Settings, the fields the pool consumes.
REDSHIFT_PORT is kept as its environment string (its int() parse is not
claim-relevant). -/
structure Settings where
  REDSHIFT_HOST : String
  REDSHIFT_PORT : String
  REDSHIFT_DATABASE : String
  REDSHIFT_USERNAME : String
  REDSHIFT_PASSWORD : String
deriving DecidableEq, Repr

/-- Settings as loaded from the environment, with the source defaults:
localhost, 5439, ai_reporting (fallback variable REDSHIFT_DB), admin
(fallback variable REDSHIFT_USER), password. -/
def Settings.ofEnv (vars : List (String × String)) : Settings :=
  { REDSHIFT_HOST := getenv vars "REDSHIFT_HOST" "localhost"
    REDSHIFT_PORT := getenv vars "REDSHIFT_PORT" "5439"
    REDSHIFT_DATABASE := getenv vars "REDSHIFT_DATABASE" (getenv vars "REDSHIFT_DB" "ai_reporting")
    REDSHIFT_USERNAME := getenv vars "REDSHIFT_USERNAME" (getenv vars "REDSHIFT_USER" "admin")
    REDSHIFT_PASSWORD := getenv vars "REDSHIFT_PASSWORD" "password" }

/-- Settings.is_configured: Python all() over the four required strings,
i.e. all of them non-empty. -/
def Settings.is_configured (s : Settings) : Bool :=
  s.REDSHIFT_HOST != "" && s.REDSHIFT_DATABASE != ""
    && s.REDSHIFT_USERNAME != "" && s.REDSHIFT_PASSWORD != ""

/-- State of a DatabaseConnectionPool instance: min/max sizes, the _pool
field (None before first use and after close_all_connections) and the
_initialized flag. -/
structure DBPool where
  min_connections : Nat
  max_connections : Nat
  pgPool : Option PGPool
  initialized : Bool
deriving DecidableEq, Repr

/-- DatabaseConnectionPool.__init__(min_connections=2, max_connections=10). -/
def DBPool.new (min_connections : Nat := 2) (max_connections : Nat := 10) : DBPool :=
  { min_connections := min_connections
    max_connections := max_connections
    pgPool := none
    initialized := false }

/-- The psycopg2 ThreadedConnectionPool constructor: eagerly connects
minconn connections from the backend supply (raising OperationalError when
the server cannot provide them); the idle list holds them head-first. -/
def mkThreadedConnectionPool (minconn maxconn : Nat) (backend : List Conn) :
    Except PErr PGPool :=
  if backend.length < minconn then Except.error PErr.operationalError
  else
    Except.ok
      { minconn := minconn
        maxconn := maxconn
        idle := (backend.take minconn).reverse
        used := []
        pclosed := false
        backend := backend.drop minconn }

/-- DatabaseConnectionPool._initialize_pool: returns at once when already
initialized (without taking the lock); under the lock checks the flag again,
then raises ValueError when settings.is_configured is false, otherwise
builds the ThreadedConnectionPool (a constructor failure propagates and
leaves the flag unset). -/
def DBPool._initialize_pool (db : DBPool) (st : Settings) (backend : List Conn) :
    Except PErr Unit × DBPool × Trace :=
  if db.initialized then (Except.ok (), db, [])
  else if db.initialized then (Except.ok (), db, [Event.lockEv])
  else if !st.is_configured then (Except.error PErr.valueError, db, [Event.lockEv])
  else
    match mkThreadedConnectionPool db.min_connections db.max_connections backend with
    | Except.ok pg =>
        (Except.ok (), { db with pgPool := some pg, initialized := true }, [Event.lockEv])
    | Except.error e => (Except.error e, db, [Event.lockEv])

/-- Body of the try block of DatabaseConnectionPool.get_connection, acting on
self._pool: getconn, then the SELECT 1 health probe; on probe failure the
connection goes back with close=True and getconn is called once more, whose
result (or error) is surfaced without a second probe. -/
def DBPool.get_connection_body (pg : PGPool) : Except PErr Conn × PGPool × Trace :=
  match pg.getconn with
  | (Except.error e, pg1, t1) => (Except.error e, pg1, t1)
  | (Except.ok conn, pg1, t1) =>
      if conn.probeOk then
        (Except.ok conn, pg1, t1 ++ [Event.probeEv conn.id true])
      else
        match pg1.putconn conn true with
        | (Except.error e, pg2, t2) =>
            (Except.error e, pg2, t1 ++ [Event.probeEv conn.id false] ++ t2)
        | (Except.ok _, pg2, t2) =>
            match pg2.getconn with
            | (r3, pg3, t3) =>
                (r3, pg3, t1 ++ [Event.probeEv conn.id false] ++ t2 ++ t3)

/-- DatabaseConnectionPool.get_connection(timeout=30): initializes the pool
on first use (an initialization error propagates), then runs the body on
self._pool. The timeout argument is accepted but never consulted: the
underlying getconn never waits. Acting on a None pool raises (modelled as
InterfaceError), which cannot happen once initialization succeeded. -/
def DBPool.get_connection (db : DBPool) (st : Settings) (backend : List Conn)
    (timeout : Nat := 30) : Except PErr Conn × DBPool × Trace :=
  let _ := timeout
  match DBPool._initialize_pool db st backend with
  | (Except.error e, db1, t0) => (Except.error e, db1, t0)
  | (Except.ok _, db1, t0) =>
      match db1.pgPool with
      | none => (Except.error PErr.interfaceError, db1, t0)
      | some pg =>
          match DBPool.get_connection_body pg with
          | (r, pg1, t1) => (r, { db1 with pgPool := some pg1 }, t0 ++ t1)

/-- The try block of DatabaseConnectionPool.return_connection, acting on
self._pool: when close is not requested and the connection is open and not
STATUS_READY, roll it back first (a raising rollback propagates), then
putconn with the given close flag. -/
def DBPool.return_connection_try (pg : PGPool) (c : Conn) (close : Bool) :
    Except PErr Unit × PGPool × Trace :=
  if !close && !c.closed && c.status ≠ ConnStatus.ready then
    match c.doRollback with
    | Except.error _ => (Except.error PErr.operationalError, pg, [Event.rollbackEv c.id false])
    | Except.ok c1 =>
        match pg.putconn c1 close with
        | (r, pg1, t) => (r, pg1, [Event.rollbackEv c.id true] ++ t)
  else
    match pg.putconn c close with
    | (r, pg1, t) => (r, pg1, t)

/-- DatabaseConnectionPool.return_connection(conn, close=False): returns
immediately (warning only) when the pool is uninitialized or conn is None;
otherwise runs the try block and, should it raise, swallows the error and
force-closes the connection. It never raises to its caller. -/
def DBPool.return_connection (db : DBPool) (conn : Option Conn) (close : Bool := false) :
    DBPool × Trace :=
  if !db.initialized then (db, [])
  else
    match conn with
    | none => (db, [])
    | some c =>
        match db.pgPool with
        | none => (db, [Event.forceCloseEv c.id])
        | some pg =>
            match DBPool.return_connection_try pg c close with
            | (Except.ok _, pg1, t) => ({ db with pgPool := some pg1 }, t)
            | (Except.error _, pg1, t) =>
                ({ db with pgPool := some pg1 }, t ++ [Event.forceCloseEv c.id])

/-- DatabaseConnectionPool.close_all_connections: no-op when uninitialized;
otherwise, under the lock, closes every pooled connection, drops the pool
object and clears the flag. A closeall failure is logged and swallowed,
leaving the state as it was. -/
def DBPool.close_all_connections (db : DBPool) : DBPool :=
  if !db.initialized then db
  else
    match db.pgPool with
    | none => db
    | some pg =>
        match pg.closeall with
        | Except.ok _ => { db with pgPool := none, initialized := false }
        | Except.error _ => db

/-- Module-level state of src/database/connection_pool.py: the global
_connection_pool. -/
structure Globals where
  connPool : Option DBPool
deriving DecidableEq, Repr

namespace CP

/-- get_connection_pool(): double-checked creation of the global
DatabaseConnectionPool (the lock event marks the slow path). -/
def get_connection_pool (g : Globals) : DBPool × Globals × Trace :=
  match g.connPool with
  | some p => (p, g, [])
  | none =>
      let p := DBPool.new
      (p, { connPool := some p }, [Event.lockEv])

/-- Module-level get_connection(timeout=30): fetch the global pool and
delegate. -/
def get_connection (st : Settings) (backend : List Conn) (timeout : Nat)
    (g : Globals) : Except PErr Conn × Globals × Trace :=
  match get_connection_pool g with
  | (p, _, t0) =>
      match p.get_connection st backend timeout with
      | (r, p1, t1) => (r, { connPool := some p1 }, t0 ++ t1)

/-- Module-level return_connection(conn, close=False). -/
def return_connection (conn : Option Conn) (close : Bool) (g : Globals) :
    Globals × Trace :=
  match get_connection_pool g with
  | (p, _, t0) =>
      match p.return_connection conn close with
      | (p1, t1) => ({ connPool := some p1 }, t0 ++ t1)

/-- Caller-supplied work: receives the connection, may mutate it (open a
transaction, break it) and either returns a value or raises. -/
abbrev WorkFn (α : Type) := Conn → Except PErr α × Conn

/-- get_connection_context(timeout=30): acquire, hand the connection to the
caller's work; when the work raises, the except clause returns the
connection with close=True and re-raises the original error; otherwise the
finally clause returns it normally. An acquisition failure propagates with
nothing to release. -/
def get_connection_context (st : Settings) (backend : List Conn) (timeout : Nat)
    (fn : WorkFn α) (g : Globals) : Except PErr α × Globals × Trace :=
  match get_connection st backend timeout g with
  | (Except.error e, g1, t0) => (Except.error e, g1, t0)
  | (Except.ok conn, g1, t0) =>
      match fn conn with
      | (Except.ok a, conn1) =>
          match return_connection (some conn1) false g1 with
          | (g2, t2) => (Except.ok a, g2, t0 ++ t2)
      | (Except.error e, conn1) =>
          match return_connection (some conn1) true g1 with
          | (g2, t2) => (Except.error e, g2, t0 ++ t2)

/-- Module-level close_all_connections(): closes the pool when one exists
and drops the global reference. -/
def close_all_connections (g : Globals) : Globals :=
  match g.connPool with
  | none => g
  | some p =>
      let _ := p.close_all_connections
      { connPool := none }

end CP

/-- Count of the release actions for connection id i in a trace: successful
putconn hand-backs plus force-closes. -/
def releaseCount (tr : Trace) (i : Nat) : Nat :=
  (tr.filter fun e =>
    match e with
    | Event.putconnEv j _ => j == i
    | Event.forceCloseEv j => j == i
    | _ => false).length

/-- Count of getconn calls in a trace. -/
def getconnCount (tr : Trace) : Nat :=
  (tr.filter fun e =>
    match e with
    | Event.getconnEv => true
    | _ => false).length

/-- Count of rollback calls in a trace. -/
def rollbackCount (tr : Trace) : Nat :=
  (tr.filter fun e =>
    match e with
    | Event.rollbackEv _ _ => true
    | _ => false).length

/-- Count of health-probe calls in a trace. -/
def probeCount (tr : Trace) : Nat :=
  (tr.filter fun e =>
    match e with
    | Event.probeEv _ _ => true
    | _ => false).length

/-- Settings as resolved from an empty environment: every default applies. -/
def stDefault : Settings := Settings.ofEnv []

def connA : Conn := { id := 1 }

def connB : Conn := { id := 2 }

def connC : Conn := { id := 3 }

def connBrokenA : Conn := { id := 11, broken := true }

def connBrokenB : Conn := { id := 12, broken := true }

/-- A pool whose next two checkouts both yield broken connections. -/
def pgTwoBroken : PGPool :=
  { minconn := 2, maxconn := 10, idle := [connBrokenA, connBrokenB]
    used := [], pclosed := false, backend := [] }

def dbTwoBroken : DBPool :=
  { min_connections := 2, max_connections := 10
    pgPool := some pgTwoBroken, initialized := true }

/-- A pool at max_size with zero idle handles. -/
def pgExhausted : PGPool :=
  { minconn := 2, maxconn := 2, idle := [], used := [connA, connB]
    pclosed := false, backend := [] }

def dbExhausted : DBPool :=
  { min_connections := 2, max_connections := 2
    pgPool := some pgExhausted, initialized := true }

/-- A healthy initialized pool with two idle handles. -/
def pgIdleTwo : PGPool :=
  { minconn := 2, maxconn := 10, idle := [connA, connB], used := []
    pclosed := false, backend := [] }

def dbReady : DBPool :=
  { min_connections := 2, max_connections := 10
    pgPool := some pgIdleTwo, initialized := true }

def gReady : Globals := { connPool := some dbReady }

/-- Fresh server connections for reinitialization scenarios. -/
def backendFresh : List Conn := [connA, connB, connC]

/-- Caller work that fails after opening a transaction on the handle. -/
def fnErrTx : CP.WorkFn Nat :=
  fun c => (Except.error (PErr.appError 7), { c with status := ConnStatus.inTransaction })

/-- Caller work that succeeds and leaves the handle untouched. -/
def fnOkWork : CP.WorkFn Nat :=
  fun c => (Except.ok 42, c)

theorem releaseCount_append (a b : Trace) (i : Nat) :
    releaseCount (a ++ b) i = releaseCount a i + releaseCount b i := by
  simp [releaseCount, List.filter_append]

theorem rollbackCount_append (a b : Trace) :
    rollbackCount (a ++ b) = rollbackCount a + rollbackCount b := by
  simp [rollbackCount, List.filter_append]

theorem getconnCount_append (a b : Trace) :
    getconnCount (a ++ b) = getconnCount a + getconnCount b := by
  simp [getconnCount, List.filter_append]

theorem getconn_trace (p : PGPool) : (p.getconn).2.2 = [Event.getconnEv] := by
  unfold PGPool.getconn
  split
  · rfl
  · split
    · rfl
    · split
      · rfl
      · split <;> rfl

theorem getconn_ok_pclosed (p : PGPool) (c : Conn) (p1 : PGPool) (t : Trace)
    (h : p.getconn = (Except.ok c, p1, t)) : p1.pclosed = false := by
  unfold PGPool.getconn at h
  split at h
  · exact absurd (congrArg Prod.fst h) (by simp)
  next hcl =>
    split at h
    · cases h
      simpa using hcl
    · split at h
      · exact absurd (congrArg Prod.fst h) (by simp)
      · split at h
        · cases h
          simpa using hcl
        · exact absurd (congrArg Prod.fst h) (by simp)

theorem doRollback_ok (c : Conn) (c1 : Conn) (h : c.doRollback = Except.ok c1) :
    c1 = { c with status := ConnStatus.ready } := by
  unfold Conn.doRollback at h
  split at h
  · cases h
  · split at h
    · cases h
    · cases h
      rfl

theorem putconn_release_eq (p : PGPool) (c : Conn) (cl : Bool) :
    releaseCount (p.putconn c cl).2.2 c.id
      = (match (p.putconn c cl).1 with
         | Except.ok _ => 1
         | Except.error _ => 0) := by
  unfold PGPool.putconn
  split
  · simp [releaseCount]
  · split
    · split
      · simp [releaseCount]
      · split
        · simp [releaseCount]
        · split
          · simp [releaseCount]
          · cases hr : c.doRollback <;> simp [releaseCount]
    · simp [releaseCount]

theorem putconn_ok_release (p : PGPool) (c : Conn) (cl : Bool)
    (h : (p.putconn c cl).1 = Except.ok ()) :
    releaseCount (p.putconn c cl).2.2 c.id = 1 := by
  simp [putconn_release_eq, h]

theorem putconn_err_release (p : PGPool) (c : Conn) (cl : Bool) (e : PErr)
    (h : (p.putconn c cl).1 = Except.error e) :
    releaseCount (p.putconn c cl).2.2 c.id = 0 := by
  simp [putconn_release_eq, h]

theorem try_release_eq (pg : PGPool) (c : Conn) (close : Bool) :
    releaseCount (DBPool.return_connection_try pg c close).2.2 c.id
      = (match (DBPool.return_connection_try pg c close).1 with
         | Except.ok _ => 1
         | Except.error _ => 0) := by
  unfold DBPool.return_connection_try
  split
  · cases hr : c.doRollback with
    | error e => simp [releaseCount]
    | ok c1 =>
        have hc1 : c1 = { c with status := ConnStatus.ready } := doRollback_ok c c1 hr
        have hid : c1.id = c.id := by rw [hc1]
        rcases hp : pg.putconn c1 close with ⟨r, pg1, t⟩
        have := putconn_release_eq pg c1 close
        rw [hp] at this
        cases r <;>
          simp_all [releaseCount, List.filter_append]
  · rcases hp : pg.putconn c close with ⟨r, pg1, t⟩
    have := putconn_release_eq pg c close
    rw [hp] at this
    cases r <;> simp_all [releaseCount]

theorem return_release_once (db : DBPool) (c : Conn) (close : Bool)
    (h1 : db.initialized = true) :
    releaseCount (db.return_connection (some c) close).2 c.id = 1 := by
  unfold DBPool.return_connection
  rw [h1]
  simp only [Bool.not_true, Bool.false_eq_true, if_false]
  cases hpg : db.pgPool with
  | none => simp [releaseCount]
  | some pg =>
      rcases ht : DBPool.return_connection_try pg c close with ⟨r, pg1, t⟩
      have := try_release_eq pg c close
      rw [ht] at this
      cases r <;> simp_all [releaseCount_append, releaseCount]

theorem init_ok_state (db : DBPool) (st : Settings) (backend : List Conn)
    (db1 : DBPool) (t : Trace)
    (h : db._initialize_pool st backend = (Except.ok (), db1, t)) :
    db1.initialized = true := by
  unfold DBPool._initialize_pool at h
  by_cases h1 : db.initialized = true
  · rw [if_pos h1] at h
    have h2 := congrArg (fun x => x.2.1) h
    dsimp only at h2
    rw [← h2]
    exact h1
  · rw [if_neg h1, if_neg h1] at h
    by_cases hc : st.is_configured = true
    · rw [if_neg (by simp [hc] : ¬(!st.is_configured) = true)] at h
      rcases hm : mkThreadedConnectionPool db.min_connections db.max_connections backend with e | pg
      · rw [hm] at h
        exact absurd (congrArg (fun x => x.1) h) (by simp)
      · rw [hm] at h
        have h2 := congrArg (fun x => x.2.1) h
        dsimp only at h2
        rw [← h2]
    · rw [if_pos (by simp [Bool.not_eq_true] at hc ⊢; exact hc)] at h
      exact absurd (congrArg (fun x => x.1) h) (by simp)

theorem body_ok_pclosed (pg : PGPool) (c : Conn) (pg1 : PGPool) (t : Trace)
    (h : DBPool.get_connection_body pg = (Except.ok c, pg1, t)) :
    pg1.pclosed = false := by
  unfold DBPool.get_connection_body at h
  rcases hg : pg.getconn with ⟨r0, pgA, tA⟩
  rw [hg] at h
  cases r0 with
  | error e => simp at h
  | ok conn =>
      dsimp only at h
      by_cases hp : conn.probeOk = true
      · rw [if_pos hp] at h
        have hpg1 : pgA = pg1 := congrArg (fun x => x.2.1) h
        rw [← hpg1]
        exact getconn_ok_pclosed pg conn pgA tA hg
      · rw [if_neg hp] at h
        rcases hpc : pgA.putconn conn true with ⟨r2, pgB, tB⟩
        rw [hpc] at h
        cases r2 with
        | error e =>
            have := congrArg (fun x => x.1) h
            simp at this
        | ok u =>
            dsimp only at h
            rcases hg2 : pgB.getconn with ⟨r3, pgC, tC⟩
            rw [hg2] at h
            cases r3 with
            | error e =>
                have := congrArg (fun x => x.1) h
                simp at this
            | ok c3 =>
                have hpg1 : pgC = pg1 := congrArg (fun x => x.2.1) h
                rw [← hpg1]
                exact getconn_ok_pclosed pgB c3 pgC tC hg2

theorem dbget_ok_state (db : DBPool) (st : Settings) (backend : List Conn)
    (t : Nat) (c : Conn) (db1 : DBPool) (tr : Trace)
    (h : DBPool.get_connection db st backend t = (Except.ok c, db1, tr)) :
    db1.initialized = true ∧ ∃ pg, db1.pgPool = some pg ∧ pg.pclosed = false := by
  unfold DBPool.get_connection at h
  rcases hi : db._initialize_pool st backend with ⟨r0, db0, t0⟩
  rw [hi] at h
  cases r0 with
  | error e =>
      dsimp only at h
      have := congrArg (fun x => x.1) h
      simp at this
  | ok u =>
      dsimp only at h
      cases hpg : db0.pgPool with
      | none =>
          rw [hpg] at h
          dsimp only at h
          have := congrArg (fun x => x.1) h
          simp at this
      | some pg =>
          rw [hpg] at h
          dsimp only at h
          rcases hb : DBPool.get_connection_body pg with ⟨r1, pg1, t1⟩
          rw [hb] at h
          dsimp only at h
          cases r1 with
          | error e =>
              have := congrArg (fun x => x.1) h
              simp at this
          | ok c1 =>
              have hinit : db0.initialized = true := by
                cases u
                exact init_ok_state db st backend db0 t0 hi
              have hdb1 := congrArg (fun x => x.2.1) h
              dsimp only at hdb1
              rw [← hdb1]
              exact ⟨hinit, pg1, rfl, body_ok_pclosed pg c1 pg1 t1 hb⟩

theorem cpget_ok_state (st : Settings) (backend : List Conn) (t : Nat)
    (g : Globals) (c : Conn) (g1 : Globals) (tr : Trace)
    (h : CP.get_connection st backend t g = (Except.ok c, g1, tr)) :
    ∃ p pg, g1.connPool = some p ∧ p.initialized = true
      ∧ p.pgPool = some pg ∧ pg.pclosed = false := by
  unfold CP.get_connection at h
  rcases hp : CP.get_connection_pool g with ⟨p0, g0, tL⟩
  rw [hp] at h
  dsimp only at h
  rcases hd : p0.get_connection st backend t with ⟨r, p1, t1⟩
  rw [hd] at h
  dsimp only at h
  cases r with
  | error e =>
      have := congrArg (fun x => x.1) h
      simp at this
  | ok c1 =>
      have hg1 := congrArg (fun x => x.2.1) h
      dsimp only at hg1
      rw [← hg1]
      obtain ⟨hinit, pg, hpg, hcl⟩ := dbget_ok_state p0 st backend t c1 p1 t1 hd
      exact ⟨p1, pg, rfl, hinit, hpg, hcl⟩

/-- C1: for every caller-supplied fn, once get_connection has handed a
connection to the scoped wrapper get_connection_context, the wrapper
releases that connection exactly once on every exit path (one release
action — putconn hand-back or force-close — is added beyond whatever the
acquisition phase did), and the outcome of fn propagates unchanged to the
caller: an error raised by fn is returned as that very error (the release
step, which never raises, cannot replace it), and a normal result is
returned as that result. -/
theorem C1_scoped_release_exactly_once {α : Type} (st : Settings) (bk : List Conn)
    (t : Nat) (g : Globals) (fn : CP.WorkFn α) (c : Conn) (g1 : Globals) (t0 : Trace)
    (hacq : CP.get_connection st bk t g = (Except.ok c, g1, t0))
    (hid : ((fn c).2).id = c.id) :
    releaseCount (CP.get_connection_context st bk t fn g).2.2 c.id
      = releaseCount t0 c.id + 1
    ∧ (∀ e, (fn c).1 = Except.error e →
        (CP.get_connection_context st bk t fn g).1 = Except.error e)
    ∧ (∀ a, (fn c).1 = Except.ok a →
        (CP.get_connection_context st bk t fn g).1 = Except.ok a) := by
  obtain ⟨p, pgx, hgp, hpi, hppg, hpcl⟩ := cpget_ok_state st bk t g c g1 t0 hacq
  have hrel : ∀ (conn1 : Conn) (cl : Bool),
      releaseCount (CP.return_connection (some conn1) cl g1).2 conn1.id = 1 := by
    intro conn1 cl
    unfold CP.return_connection CP.get_connection_pool
    rw [hgp]
    dsimp only
    rcases hr : p.return_connection (some conn1) cl with ⟨p2, t2⟩
    have hro := return_release_once p conn1 cl hpi
    rw [hr] at hro
    dsimp only
    simpa using hro
  unfold CP.get_connection_context
  rw [hacq]
  dsimp only
  rcases hfn : fn c with ⟨rf, conn1⟩
  have hid1 : conn1.id = c.id := by
    rw [hfn] at hid
    exact hid
  cases rf with
  | ok a =>
      dsimp only
      rcases hrc : CP.return_connection (some conn1) false g1 with ⟨g2, t2⟩
      have h1 := hrel conn1 false
      rw [hrc] at h1
      dsimp only at h1
      refine ⟨?_, ?_, ?_⟩
      · dsimp only
        rw [releaseCount_append, ← hid1, h1]
      · intro e he
        simp at he
      · intro a2 ha
        exact ha
  | error e0 =>
      dsimp only
      rcases hrc : CP.return_connection (some conn1) true g1 with ⟨g2, t2⟩
      have h1 := hrel conn1 true
      rw [hrc] at h1
      dsimp only at h1
      refine ⟨?_, ?_, ?_⟩
      · dsimp only
        rw [releaseCount_append, ← hid1, h1]
      · intro e he
        exact he
      · intro a2 ha
        simp at ha

theorem putconn_close_true (p : PGPool) (c : Conn) (h : p.pclosed = false) :
    p.putconn c true
      = (Except.ok (), { p with used := eraseById p.used c.id },
         [Event.putconnEv c.id true]) := by
  unfold PGPool.putconn
  rw [h]
  simp

theorem getconn_trace_of (p : PGPool) (r : Except PErr Conn) (p1 : PGPool) (t : Trace)
    (h : p.getconn = (r, p1, t)) : t = [Event.getconnEv] := by
  have := getconn_trace p
  rw [h] at this
  exact this

/-- Shape of the trace of a get_connection body run whose first checked-out
handle fails the health probe: one checkout, one failed probe, one
discarding putconn, one more checkout and nothing else. -/
theorem body_probe_fail_trace (pg : PGPool) (c0 : Conn) (pg1 : PGPool) (t1 : Trace)
    (h : pg.getconn = (Except.ok c0, pg1, t1)) (hp : c0.probeOk = false) :
    (DBPool.get_connection_body pg).2.2
      = [Event.getconnEv, Event.probeEv c0.id false,
         Event.putconnEv c0.id true, Event.getconnEv] := by
  have ht1 : t1 = [Event.getconnEv] := getconn_trace_of pg _ pg1 t1 h
  have hcl : pg1.pclosed = false := getconn_ok_pclosed pg c0 pg1 t1 h
  unfold DBPool.get_connection_body
  rw [h]
  dsimp only
  rw [if_neg (by simp [hp])]
  rw [putconn_close_true pg1 c0 hcl]
  dsimp only
  rcases hg2 : ({ pg1 with used := eraseById pg1.used c0.id } : PGPool).getconn
    with ⟨r3, pg3, t3⟩
  have ht3 : t3 = [Event.getconnEv] := getconn_trace_of _ r3 pg3 t3 hg2
  simp [ht1, ht3]

/-- Shape of a body run whose first handle passes the probe: that handle is
the one returned, after one checkout and one successful probe. -/
theorem body_probe_ok_eq (pg : PGPool) (c0 : Conn) (pg1 : PGPool) (t1 : Trace)
    (h : pg.getconn = (Except.ok c0, pg1, t1)) (hp : c0.probeOk = true) :
    DBPool.get_connection_body pg
      = (Except.ok c0, pg1, [Event.getconnEv, Event.probeEv c0.id true]) := by
  have ht1 : t1 = [Event.getconnEv] := getconn_trace_of pg _ pg1 t1 h
  unfold DBPool.get_connection_body
  rw [h]
  dsimp only
  rw [if_pos hp, ht1]
  rfl

/-- C2 (code bug): against a pool at max_size with zero idle handles,
get_connection does not block and does not consult its timeout argument:
for any two timeout values the whole call computes the same result, and
that result is an immediate pool-exhausted error that leaves the pool state
(and hence its counters) exactly unchanged, after a single checkout
attempt. -/
theorem C2_timeout_ignored_immediate_failure (t1 t2 : Nat) :
    DBPool.get_connection dbExhausted stDefault [] t1
      = DBPool.get_connection dbExhausted stDefault [] t2
    ∧ DBPool.get_connection dbExhausted stDefault [] t1
      = (Except.error PErr.poolExhausted, dbExhausted, [Event.getconnEv]) := by
  exact ⟨rfl, rfl⟩

/-- C3 counterexample: with two broken handles next in the pool, the first
fails the probe and is discarded, and the second — equally broken, never
probed — is handed to the caller: a broken handle reaches the caller. -/
theorem C3_broken_replacement_reaches_caller :
    (DBPool.get_connection dbTwoBroken stDefault [] 30).1 = Except.ok connBrokenB
    ∧ connBrokenB.broken = true
    ∧ connBrokenB.probeOk = false := by
  exact ⟨rfl, rfl, rfl⟩

/-- C3 amended: only the first checked-out handle is health-probed. When its
probe passes, the caller receives exactly that validated handle; when it
fails, the body performs exactly one probe in total, so the retry handle is
returned to the caller without any liveness check. -/
theorem C3_probe_only_first_handle (pg : PGPool) (c0 : Conn) (pg1 : PGPool) (t1 : Trace)
    (h : pg.getconn = (Except.ok c0, pg1, t1)) :
    (c0.probeOk = true → (DBPool.get_connection_body pg).1 = Except.ok c0)
    ∧ (c0.probeOk = false →
        probeCount (DBPool.get_connection_body pg).2.2 = 1
        ∧ getconnCount (DBPool.get_connection_body pg).2.2 = 2) := by
  constructor
  · intro hp
    rw [body_probe_ok_eq pg c0 pg1 t1 h hp]
  · intro hp
    rw [body_probe_fail_trace pg c0 pg1 t1 h hp]
    exact ⟨rfl, rfl⟩

/-- C4 counterexample: shut the pool down via close_all_connections, then
call get_connection with configured (default) settings and a willing
backend: the call succeeds with a fresh connection instead of failing with
a configuration or lifecycle error. -/
theorem C4_acquire_after_shutdown_succeeds :
    (CP.close_all_connections gReady).connPool = none
    ∧ (CP.get_connection stDefault backendFresh 30
        (CP.close_all_connections gReady)).1 = Except.ok connB := by
  exact ⟨rfl, rfl⟩

/-- C4 amended: close_all_connections clears the global pool reference, and
a subsequent get_connection behaves exactly as a first-ever call on a
fresh process would: it silently constructs and lazily initializes a new
pool (succeeding whenever settings and backend allow) rather than failing
with a lifecycle error. -/
theorem C4_shutdown_resets_to_fresh (g : Globals) (st : Settings)
    (bk : List Conn) (t : Nat) :
    (CP.close_all_connections g).connPool = none
    ∧ CP.get_connection st bk t (CP.close_all_connections g)
        = CP.get_connection st bk t { connPool := none } := by
  have h : CP.close_all_connections g = { connPool := none } := by
    unfold CP.close_all_connections
    cases g with
    | mk cp => cases cp <;> rfl
  rw [h]
  exact ⟨rfl, rfl⟩

/-- C6: the get_connection body never performs more than two checkouts, and
when the first checked-out handle fails its health probe it discards that
handle (putconn with close=true) and performs exactly one further checkout
— a single retry — whose outcome, connection or error, is surfaced
directly. -/
theorem C6_probe_failure_single_retry (pg : PGPool) :
    getconnCount (DBPool.get_connection_body pg).2.2 ≤ 2
    ∧ (∀ c0 pg1 t1, pg.getconn = (Except.ok c0, pg1, t1) → c0.probeOk = false →
        Event.putconnEv c0.id true ∈ (DBPool.get_connection_body pg).2.2
        ∧ getconnCount (DBPool.get_connection_body pg).2.2 = 2) := by
  constructor
  · rcases hg : pg.getconn with ⟨r0, pgA, tA⟩
    have htA : tA = [Event.getconnEv] := getconn_trace_of pg r0 pgA tA hg
    cases r0 with
    | error e =>
        unfold DBPool.get_connection_body
        rw [hg]
        dsimp only
        simp [getconnCount, htA]
    | ok conn =>
        by_cases hp : conn.probeOk = true
        · rw [body_probe_ok_eq pg conn pgA tA hg hp]
          simp [getconnCount]
        · rw [body_probe_fail_trace pg conn pgA tA hg (by simpa using hp)]
          simp [getconnCount]
  · intro c0 pg1 t1 h hp
    rw [body_probe_fail_trace pg c0 pg1 t1 h hp]
    refine ⟨?_, rfl⟩
    simp

/-- The idle list of the global pool, when one exists. -/
def poolIdle (g : Globals) : Option (List Conn) :=
  match g.connPool with
  | none => none
  | some p =>
      match p.pgPool with
      | none => none
      | some pg => some pg.idle

theorem return_close_true_eq (db : DBPool) (pg : PGPool) (c : Conn)
    (h1 : db.initialized = true) (hpg : db.pgPool = some pg)
    (hcl : pg.pclosed = false) :
    db.return_connection (some c) true
      = ({ db with pgPool := some { pg with used := eraseById pg.used c.id } },
         [Event.putconnEv c.id true]) := by
  unfold DBPool.return_connection DBPool.return_connection_try
  rw [h1, hpg]
  dsimp only
  rw [putconn_close_true pg c hcl]
  simp

theorem cp_return_close_true_eq (g1 : Globals) (p : DBPool) (pg : PGPool) (c : Conn)
    (hgp : g1.connPool = some p) (h1 : p.initialized = true)
    (hpg : p.pgPool = some pg) (hcl : pg.pclosed = false) :
    CP.return_connection (some c) true g1
      = ({ connPool := some
            { p with pgPool := some { pg with used := eraseById pg.used c.id } } },
         [Event.putconnEv c.id true]) := by
  unfold CP.return_connection CP.get_connection_pool
  rw [hgp]
  dsimp only
  rw [return_close_true_eq p pg c h1 hpg hcl]
  simp

/-- C5 counterexample: run the scoped wrapper with work that raises after
opening a transaction on a handle whose rollback would succeed. The claim
predicts a rollback attempt and, it succeeding, a check-in with
discard=false; the code instead performs no rollback at all, hands the
handle back with close=true, and the handle does not re-enter the idle
set. -/
theorem C5_error_release_skips_rollback_cex :
    rollbackCount (CP.get_connection_context stDefault [] 30 fnErrTx gReady).2.2 = 0
    ∧ Event.putconnEv 1 true ∈ (CP.get_connection_context stDefault [] 30 fnErrTx gReady).2.2
    ∧ Event.putconnEv 1 false ∉ (CP.get_connection_context stDefault [] 30 fnErrTx gReady).2.2
    ∧ (fnErrTx connA).2.rollbackOk = true
    ∧ (fnErrTx connA).2.status = ConnStatus.inTransaction
    ∧ poolIdle (CP.get_connection_context stDefault [] 30 fnErrTx gReady).2.1 = some [connB] := by
  exact ⟨rfl, by decide, by decide, rfl, rfl, rfl⟩

/-- C5 amended: when the caller's work raised, the wrapper releases the
handle with close=true: the original error is re-raised to the caller, the
release phase attempts no rollback (the rollback total over the whole run
equals that of the acquisition phase alone), and the idle set is left
exactly as it was — the handle is discarded, never checked back in. -/
theorem C5_error_release_discards {α : Type} (st : Settings) (bk : List Conn)
    (t : Nat) (g : Globals) (fn : CP.WorkFn α) (c : Conn) (g1 : Globals)
    (t0 : Trace) (e : PErr)
    (hacq : CP.get_connection st bk t g = (Except.ok c, g1, t0))
    (he : (fn c).1 = Except.error e) :
    (CP.get_connection_context st bk t fn g).1 = Except.error e
    ∧ rollbackCount (CP.get_connection_context st bk t fn g).2.2 = rollbackCount t0
    ∧ poolIdle (CP.get_connection_context st bk t fn g).2.1 = poolIdle g1 := by
  obtain ⟨p, pg, hgp, hpi, hppg, hpcl⟩ := cpget_ok_state st bk t g c g1 t0 hacq
  unfold CP.get_connection_context
  rw [hacq]
  dsimp only
  rcases hfn : fn c with ⟨rf, conn1⟩
  rw [hfn] at he
  dsimp only at he
  cases rf with
  | ok a => cases he
  | error e0 =>
      cases he
      dsimp only
      rw [cp_return_close_true_eq g1 p pg conn1 hgp hpi hppg hpcl]
      dsimp only
      refine ⟨rfl, ?_, ?_⟩
      · simp [rollbackCount_append, rollbackCount]
      · simp [poolIdle, hgp, hppg]

def dbNew : DBPool := DBPool.new

/-- C7 counterexample: with every database variable missing from the
environment, the resolved settings fall back to the non-empty placeholder
defaults, is_configured reports true, and the first initialization attempt
does not fail with the configuration error — it proceeds to connect with
those placeholder credentials. -/
theorem C7_empty_env_init_attempts_connection :
    stDefault.is_configured = true
    ∧ stDefault.REDSHIFT_HOST = "localhost"
    ∧ stDefault.REDSHIFT_DATABASE = "ai_reporting"
    ∧ stDefault.REDSHIFT_USERNAME = "admin"
    ∧ stDefault.REDSHIFT_PASSWORD = "password"
    ∧ (dbNew._initialize_pool stDefault backendFresh).1 = Except.ok ()
    ∧ (dbNew._initialize_pool stDefault backendFresh).2.1.initialized = true := by
  exact ⟨rfl, rfl, rfl, rfl, rfl, rfl, rfl⟩

/-- C7 amended: initialization fails with the configuration error
(ValueError) exactly when one of the four required settings resolves to the
empty string, that is, only when a variable is explicitly set empty —
absent variables resolve to the non-empty defaults, so is_configured is
true and initialization proceeds to attempt a connection with placeholder
credentials. When the configuration error does fire, the pool state is
left untouched (no connection is attempted). -/
theorem C7_config_error_iff_empty_setting (vars : List (String × String))
    (db : DBPool) (bk : List Conn) (h : db.initialized = false) :
    ((db._initialize_pool (Settings.ofEnv vars) bk).1 = Except.error PErr.valueError
      ↔ (Settings.ofEnv vars).is_configured = false)
    ∧ ((Settings.ofEnv vars).is_configured = false
      ↔ ((Settings.ofEnv vars).REDSHIFT_HOST = ""
          ∨ (Settings.ofEnv vars).REDSHIFT_DATABASE = ""
          ∨ (Settings.ofEnv vars).REDSHIFT_USERNAME = ""
          ∨ (Settings.ofEnv vars).REDSHIFT_PASSWORD = ""))
    ∧ ((Settings.ofEnv vars).is_configured = false →
        (db._initialize_pool (Settings.ofEnv vars) bk).2.1 = db) := by
  refine ⟨?_, ?_, ?_⟩
  · unfold DBPool._initialize_pool
    rw [if_neg (by simp [h]), if_neg (by simp [h])]
    by_cases hc : (Settings.ofEnv vars).is_configured = true
    · rw [if_neg (by simp [hc])]
      constructor
      · intro hv
        rcases hm : mkThreadedConnectionPool db.min_connections db.max_connections bk
          with e | pg
        · rw [hm] at hv
          dsimp only at hv
          unfold mkThreadedConnectionPool at hm
          split at hm
          · cases hm
            cases hv
          · cases hm
        · rw [hm] at hv
          cases hv
      · intro hv
        rw [hc] at hv
        cases hv
    · rw [if_pos (by simpa using hc)]
      simp [Bool.not_eq_true] at hc
      simp [hc]
  · simp only [Settings.is_configured, Bool.and_eq_false_iff, bne_eq_false_iff_eq]
    tauto
  · intro hc
    unfold DBPool._initialize_pool
    rw [if_neg (by simp [h]), if_neg (by simp [h]), if_pos (by simp [hc])]

/-- C8: a second initialization is an idempotent no-op through the fast
path: with the flag already set, _initialize_pool returns immediately with
the pool state unchanged and an empty trace (no lock event — the
unsynchronized fast path), and likewise get_connection_pool returns the
existing global instance without touching the creation lock. -/
theorem C8_init_idempotent_fast_path (db : DBPool) (st : Settings)
    (bk : List Conn) (g : Globals) (p : DBPool)
    (h1 : db.initialized = true) (h2 : g.connPool = some p) :
    db._initialize_pool st bk = (Except.ok (), db, [])
    ∧ CP.get_connection_pool g = (p, g, []) := by
  constructor
  · unfold DBPool._initialize_pool
    rw [if_pos h1]
  · unfold CP.get_connection_pool
    rw [h2]

/-- Any putconn leaves the idle list unchanged (the handle was closed,
broken or discarded) or pushes exactly one handle whose transaction status
is READY and whose identity is the returned handle's. -/
theorem putconn_idle_shape (p : PGPool) (c : Conn) (cl : Bool) :
    (p.putconn c cl).2.1.idle = p.idle
    ∨ ∃ x, (p.putconn c cl).2.1.idle = x :: p.idle
        ∧ x.status = ConnStatus.ready ∧ x.id = c.id := by
  unfold PGPool.putconn
  split
  · left; rfl
  · split
    · split
      · left; rfl
      · split
        · left; rfl
        · split
          next hready =>
            right
            exact ⟨c, rfl, hready, rfl⟩
          next =>
            cases hr : c.doRollback with
            | ok c1 =>
                right
                refine ⟨c1, rfl, ?_, ?_⟩
                · rw [doRollback_ok c c1 hr]
                · rw [doRollback_ok c c1 hr]
            | error e => left; rfl
    · left; rfl

/-- The release try-block obeys the same idle-list shape as putconn. -/
theorem try_idle_shape (pg : PGPool) (c : Conn) (cl : Bool) :
    (DBPool.return_connection_try pg c cl).2.1.idle = pg.idle
    ∨ ∃ x, (DBPool.return_connection_try pg c cl).2.1.idle = x :: pg.idle
        ∧ x.status = ConnStatus.ready ∧ x.id = c.id := by
  unfold DBPool.return_connection_try
  split
  · cases hr : c.doRollback with
    | error e => left; rfl
    | ok c1 =>
        dsimp only
        rcases putconn_idle_shape pg c1 cl with hA | ⟨x, hx, hxs, hxi⟩
        · left
          exact hA
        · right
          refine ⟨x, hx, hxs, ?_⟩
          rw [hxi, doRollback_ok c c1 hr]
  · dsimp only
    exact putconn_idle_shape pg c cl

/-- C9: on a clean release (close=false) of an open handle not already in
the idle set, a pending transaction is rolled back before the handle can
re-enter the pool: whenever the rollback is possible (handle alive and
rollback succeeding) the rollback call is actually made, and in every case
any handle re-entering the idle set under the released handle's identity
has transaction status READY — an uncommitted transaction never re-enters
the idle set. -/
theorem C9_clean_release_rolls_back (db : DBPool) (pg : PGPool) (c : Conn)
    (h1 : db.initialized = true) (h2 : db.pgPool = some pg)
    (h3 : c.closed = false) (hfresh : ∀ c1 ∈ pg.idle, c1.id ≠ c.id) :
    (∀ pg1, (db.return_connection (some c) false).1.pgPool = some pg1 →
        ∀ c1 ∈ pg1.idle, c1.id = c.id → c1.status = ConnStatus.ready)
    ∧ (c.status ≠ ConnStatus.ready → c.broken = false → c.rollbackOk = true →
        Event.rollbackEv c.id true ∈ (db.return_connection (some c) false).2) := by
  constructor
  · intro pg1 hpg1 c1 hc1 hcid
    have hshape := try_idle_shape pg c false
    revert hpg1
    unfold DBPool.return_connection
    rw [h1]
    simp only [Bool.not_true, Bool.false_eq_true, if_false]
    rw [h2]
    dsimp only
    rcases hty : DBPool.return_connection_try pg c false with ⟨r, pgB, tB⟩
    rw [hty] at hshape
    dsimp only at hshape
    cases r with
    | ok u =>
        dsimp only
        intro hpg1
        have hBeq : pgB = pg1 := Option.some.inj hpg1
        rw [← hBeq] at hc1
        rcases hshape with hA | ⟨x, hx, hxs, hxi⟩
        · rw [hA] at hc1
          exact absurd hcid (hfresh c1 hc1)
        · rw [hx] at hc1
          rcases List.mem_cons.mp hc1 with hEq | hIn
          · rw [hEq]
            exact hxs
          · exact absurd hcid (hfresh c1 hIn)
    | error e =>
        dsimp only
        intro hpg1
        have hBeq : pgB = pg1 := Option.some.inj hpg1
        rw [← hBeq] at hc1
        rcases hshape with hA | ⟨x, hx, hxs, hxi⟩
        · rw [hA] at hc1
          exact absurd hcid (hfresh c1 hc1)
        · rw [hx] at hc1
          rcases List.mem_cons.mp hc1 with hEq | hIn
          · rw [hEq]
            exact hxs
          · exact absurd hcid (hfresh c1 hIn)
  · intro hst hbr hro
    have hr : c.doRollback = Except.ok { c with status := ConnStatus.ready } := by
      unfold Conn.doRollback
      rw [if_neg (by simp [h3]), if_neg (by simp [hbr, hro])]
    have htr : (DBPool.return_connection_try pg c false).2.2
        = [Event.rollbackEv c.id true]
          ++ (pg.putconn { c with status := ConnStatus.ready } false).2.2 := by
      unfold DBPool.return_connection_try
      rw [if_pos (by simp [h3, hst]), hr]
    unfold DBPool.return_connection
    rw [h1]
    simp only [Bool.not_true, Bool.false_eq_true, if_false]
    rw [h2]
    dsimp only
    rcases hty : DBPool.return_connection_try pg c false with ⟨r, pgB, tB⟩
    rw [hty] at htr
    dsimp only at htr
    cases r with
    | ok u =>
        dsimp only
        rw [htr]
        simp
    | error e =>
        dsimp only
        rw [htr]
        simp

/-- C10: return_connection is total towards its caller. Called with a null
connection or on an uninitialized pool it returns at once with the pool
state unchanged and nothing done; and when the inner try-block (rollback
plus putconn) fails with any error, the error is swallowed and the
connection is force-closed instead — by its type the function returns
state, never an exception. -/
theorem C10_return_never_raises (db : DBPool) (conn : Option Conn) (close : Bool) :
    (db.initialized = false ∨ conn = none →
        db.return_connection conn close = (db, []))
    ∧ (∀ c pg e, db.initialized = true → db.pgPool = some pg → conn = some c →
        (DBPool.return_connection_try pg c close).1 = Except.error e →
        Event.forceCloseEv c.id ∈ (db.return_connection conn close).2) := by
  constructor
  · intro h
    unfold DBPool.return_connection
    rcases h with h | h
    · rw [h]
      simp
    · rw [h]
      cases hb : db.initialized <;> simp [hb]
  · intro c pg e h1 h2 hc he
    subst hc
    unfold DBPool.return_connection
    rw [h1]
    simp only [Bool.not_true, Bool.false_eq_true, if_false]
    rw [h2]
    dsimp only
    rcases hty : DBPool.return_connection_try pg c close with ⟨r, pgB, tB⟩
    rw [hty] at he
    dsimp only at he
    subst he
    simp

/-- Global state right after the acquisition from gReady: connA checked
out, connB still idle. -/
def gAcq1 : Globals :=
  { connPool := some
      { min_connections := 2, max_connections := 10
        pgPool := some { minconn := 2, maxconn := 10, idle := [connB], used := [connA]
                         pclosed := false, backend := [] }
        initialized := true } }

/-- pgTwoBroken right after its first checkout. -/
def pgAfter3 : PGPool :=
  { minconn := 2, maxconn := 10, idle := [connBrokenB], used := [connBrokenA]
    pclosed := false, backend := [] }

/-- An open handle with a pending transaction, foreign to pgIdleTwo. -/
def connInTx : Conn := { id := 5, status := ConnStatus.inTransaction }

theorem C1_scoped_release_exactly_once_witness :
    releaseCount (CP.get_connection_context stDefault [] 30 fnOkWork gReady).2.2 connA.id
      = releaseCount [Event.getconnEv, Event.probeEv 1 true] connA.id + 1
    ∧ (∀ e, (fnOkWork connA).1 = Except.error e →
        (CP.get_connection_context stDefault [] 30 fnOkWork gReady).1 = Except.error e)
    ∧ (∀ a, (fnOkWork connA).1 = Except.ok a →
        (CP.get_connection_context stDefault [] 30 fnOkWork gReady).1 = Except.ok a) :=
  C1_scoped_release_exactly_once stDefault [] 30 gReady fnOkWork connA gAcq1
    [Event.getconnEv, Event.probeEv 1 true] rfl rfl

theorem C3_probe_only_first_handle_witness :
    (connBrokenA.probeOk = true →
        (DBPool.get_connection_body pgTwoBroken).1 = Except.ok connBrokenA)
    ∧ (connBrokenA.probeOk = false →
        probeCount (DBPool.get_connection_body pgTwoBroken).2.2 = 1
        ∧ getconnCount (DBPool.get_connection_body pgTwoBroken).2.2 = 2) :=
  C3_probe_only_first_handle pgTwoBroken connBrokenA pgAfter3 [Event.getconnEv] rfl

theorem C5_error_release_discards_witness :
    (CP.get_connection_context stDefault [] 30 fnErrTx gReady).1
      = Except.error (PErr.appError 7)
    ∧ rollbackCount (CP.get_connection_context stDefault [] 30 fnErrTx gReady).2.2
      = rollbackCount [Event.getconnEv, Event.probeEv 1 true]
    ∧ poolIdle (CP.get_connection_context stDefault [] 30 fnErrTx gReady).2.1
      = poolIdle gAcq1 :=
  C5_error_release_discards stDefault [] 30 gReady fnErrTx connA gAcq1
    [Event.getconnEv, Event.probeEv 1 true] (PErr.appError 7) rfl rfl

theorem C7_config_error_iff_empty_setting_witness :
    ((dbNew._initialize_pool (Settings.ofEnv [("REDSHIFT_PASSWORD", "")]) []).1
        = Except.error PErr.valueError
      ↔ (Settings.ofEnv [("REDSHIFT_PASSWORD", "")]).is_configured = false)
    ∧ ((Settings.ofEnv [("REDSHIFT_PASSWORD", "")]).is_configured = false
      ↔ ((Settings.ofEnv [("REDSHIFT_PASSWORD", "")]).REDSHIFT_HOST = ""
          ∨ (Settings.ofEnv [("REDSHIFT_PASSWORD", "")]).REDSHIFT_DATABASE = ""
          ∨ (Settings.ofEnv [("REDSHIFT_PASSWORD", "")]).REDSHIFT_USERNAME = ""
          ∨ (Settings.ofEnv [("REDSHIFT_PASSWORD", "")]).REDSHIFT_PASSWORD = ""))
    ∧ ((Settings.ofEnv [("REDSHIFT_PASSWORD", "")]).is_configured = false →
        (dbNew._initialize_pool (Settings.ofEnv [("REDSHIFT_PASSWORD", "")]) []).2.1
          = dbNew) :=
  C7_config_error_iff_empty_setting [("REDSHIFT_PASSWORD", "")] dbNew [] rfl

theorem C8_init_idempotent_fast_path_witness :
    dbReady._initialize_pool stDefault [] = (Except.ok (), dbReady, [])
    ∧ CP.get_connection_pool gReady = (dbReady, gReady, []) :=
  C8_init_idempotent_fast_path dbReady stDefault [] gReady dbReady rfl rfl

theorem C9_clean_release_rolls_back_witness :
    (∀ pg1, (dbReady.return_connection (some connInTx) false).1.pgPool = some pg1 →
        ∀ c1 ∈ pg1.idle, c1.id = connInTx.id → c1.status = ConnStatus.ready)
    ∧ (connInTx.status ≠ ConnStatus.ready → connInTx.broken = false →
        connInTx.rollbackOk = true →
        Event.rollbackEv connInTx.id true
          ∈ (dbReady.return_connection (some connInTx) false).2) :=
  C9_clean_release_rolls_back dbReady pgIdleTwo connInTx rfl rfl rfl (by decide)
